import Mathlib

/-!
Verification development for the browser-agent session orchestration layer
(`src/backend/src/agent/agent_manager.py` and
`src/backend/src/agent/socket_manager.py`).

The Python code is shallowly embedded as pure Lean functions:

* the SQLAlchemy task table becomes a map `String → Option TaskRecord`;
  every `_send_step_update` call appends a `StepRecord` to a step log and a
  `stepUpdate` event to a broadcast log; every `_update_task_status` call
  rewrites the record and appends a `statusChange` event (mirroring the
  source, which always does write-then-notify);
* the browser-use engine is an opaque collaborator, modelled by `EngineRun`:
  a final history list, the history length visible at each one-second poll
  tick (`lenAt`), the tick at which `agent.run()` finishes (`doneAt`), and
  its outcome (a result or a raised exception, as `Except`);
* the monitor loop of `_run_agent_with_monitoring` is a tick-indexed
  structural recursion (`monitorLoop`); its `fuel` argument is the loop
  budget `maxSteps + 1`, which is exact because `step_count` is incremented
  once per iteration and the cap check ends the loop at `step_count = 51`;
  the pause busy-wait only delays polling in real time and affects no state,
  so it is not represented;
* the stop flag set by `stop_agent_session` reaches the worker thread
  through the `stopAt` tick parameter of `monitorLoop`, and the
  `thread.join` suspension point is the `join` function argument of
  `stop_agent_session`: whatever the worker still does before exiting is
  applied to the shared state there, together with the flag values the
  worker observes (stop set, pause cleared).
-/

namespace Facturas

/-- Task status enumeration (`src/schemas/schemas.py` TaskStatus). -/
inductive TaskStatus where
  | pending
  | running
  | paused
  | completed
  | failed
deriving DecidableEq

/-- Step type enumeration (`src/schemas/schemas.py` StepType). -/
inductive StepType where
  | thinking
  | action
  | observation
  | error
deriving DecidableEq

/-- Durable task record: the columns of the Task row that
`_update_task_status` touches (status, error_message, completed_at). -/
structure TaskRecord where
  status : TaskStatus
  errorMessage : Option String
  completedAt : Option Nat
deriving DecidableEq

/-- One persisted TaskStep row: task id, step type, the content message and
an optional extra payload (current_state / action details / result /
raw_entry, depending on the branch that produced it). -/
structure StepRecord where
  taskId : String
  stepType : StepType
  message : String
  extra : Option String
deriving DecidableEq

/-- One WebSocket broadcast: `send_step_update` or `send_status_change`. -/
inductive Event where
  | stepUpdate : String → StepType → String → Event
  | statusChange : String → TaskStatus → Option String → Event
deriving DecidableEq

/-- Shared persistent state: the task table, the append-only step log and
the append-only log of broadcast events. -/
structure SysState where
  db : String → Option TaskRecord
  steps : List StepRecord
  events : List Event

/-- Whether a status is terminal (`status in [COMPLETED, FAILED]`). -/
def isTerminal (s : TaskStatus) : Bool :=
  match s with
  | TaskStatus.completed => true
  | TaskStatus.failed => true
  | _ => false

/-- Embedding of `_send_step_update` (agent_manager.py lines 503-533):
persist a TaskStep row and broadcast a step_update message. -/
def sendStepUpdate (sys : SysState) (taskId : String) (stepType : StepType)
    (message : String) (extra : Option String) : SysState :=
  { sys with
      steps := sys.steps ++ [StepRecord.mk taskId stepType message extra],
      events := sys.events ++ [Event.stepUpdate taskId stepType message] }

/-- Embedding of `_update_task_status` (agent_manager.py lines 535-559):
look the task up; if absent, do nothing at all; otherwise set the status,
set error_message when one is given, set completed_at when the status is
terminal, and broadcast a status_change message. -/
def updateTaskStatus (sys : SysState) (now : Nat) (taskId : String)
    (status : TaskStatus) (errorMessage : Option String) : SysState :=
  match sys.db taskId with
  | none => sys
  | some task =>
      let task1 := { task with status := status }
      let task2 :=
        match errorMessage with
        | some e => { task1 with errorMessage := some e }
        | none => task1
      let task3 :=
        if isTerminal status then { task2 with completedAt := some now } else task2
      { sys with
          db := fun t => if t = taskId then some task3 else sys.db t,
          events := sys.events ++ [Event.statusChange taskId status errorMessage] }

/-- Duck-typed `model_output` of a browser-use history entry: the optional
`current_state` and `action` fields inspected by `_process_history_entry`.
`none` models an absent or falsy attribute. -/
structure ModelOutput where
  current_state : Option String
  action : Option String
deriving DecidableEq

/-- One entry of the engine's append-only history, as inspected by
`_process_history_entry`: optional `model_output`, `result` and `error`
fields (`none` models the attribute being absent or falsy), a flag saying
whether inspecting the entry raises an exception, and the entry's raw
string serialization (`str(entry)`). -/
structure HistoryEntry where
  model_output : Option ModelOutput
  result : Option String
  error : Option String
  parseRaises : Bool
  raw : String
deriving DecidableEq

/-- Embedding of `_process_history_entry` (agent_manager.py lines 322-394):
the list of `(step_type, message, extra)` updates emitted for one history
entry. When inspection raises, the except branch emits a single generic
observation carrying the raw entry; otherwise each present field emits its
own update, and an entry with no recognised field emits nothing. -/
def process_history_entry (e : HistoryEntry) (stepNumber : Nat) :
    List (StepType × String × Option String) :=
  if e.parseRaises then
    [(StepType.observation, "Agent executed step " ++ toString (stepNumber + 1),
      some e.raw)]
  else
    (match e.model_output with
     | some mo =>
         (match mo.current_state with
          | some cs =>
              [(StepType.thinking,
                "Step " ++ toString (stepNumber + 1) ++ ": Analyzing current state",
                some cs)]
          | none => []) ++
         (match mo.action with
          | some a =>
              [(StepType.action, "Executing action: " ++ a, some a)]
          | none => [])
     | none => []) ++
    (match e.result with
     | some r =>
         [(StepType.observation,
           "Step " ++ toString (stepNumber + 1) ++ " completed", some r)]
     | none => []) ++
    (match e.error with
     | some err =>
         [(StepType.error,
           "Error in step " ++ toString (stepNumber + 1) ++ ": " ++ err, some err)]
     | none => [])

/-- Send every update produced for one history entry. -/
def emitSteps (sys : SysState) (taskId : String)
    (outs : List (StepType × String × Option String)) : SysState :=
  outs.foldl (fun s o => sendStepUpdate s taskId o.1 o.2.1 o.2.2) sys

/-- The opaque engine invocation, seen from the monitor loop: the final
history, the history length visible at each poll tick, the tick at which
`agent.run()` is done, and its outcome (`Except.error` models the run
raising an exception; `Except.ok none` a falsy result). -/
structure EngineRun where
  hist : List HistoryEntry
  lenAt : Nat → Nat
  doneAt : Nat
  outcome : Except String (Option String)

/-- The hard step cap of `_run_agent_with_monitoring` (`max_steps = 50`). -/
def maxSteps : Nat := 50

/-- Whether the session's stop flag is set at a given poll tick. -/
def stopSet (stopAt : Option Nat) (tick : Nat) : Bool :=
  match stopAt with
  | some s => decide (s ≤ tick)
  | none => false

/-- Process history index `i` the way the body of the diff loop does:
the `if i < len(history.history)` guard becomes the `get?` lookup, and the
entry is handed to `_process_history_entry` with step number
`step_count + i`. -/
def processEntryAt (sys : SysState) (taskId : String) (eng : EngineRun)
    (stepCount i : Nat) : SysState :=
  match eng.hist[i]? with
  | some e => emitSteps sys taskId (process_history_entry e (stepCount + i))
  | none => sys

/-- Embedding of the monitor loop of `_run_agent_with_monitoring`
(agent_manager.py lines 258-316). Each iteration: exit and await the
engine's outcome once the run is done; on the stop flag, cancel, emit the
stopped observation and return a `None` result; otherwise diff the history
against the `last_history_length` cursor, process every new index, advance
the cursor, increment `step_count`, and when `step_count` passes the cap,
cancel, emit the cap error step and return a `None` result. Returns the
updated state, the list of history indices processed, and the value the
surrounding coroutine sees. `fuel` is the iteration budget; the entry point
passes `maxSteps + 1`, which the cap check makes exact. -/
def monitorLoop (taskId : String) (eng : EngineRun) (stopAt : Option Nat) :
    Nat → Nat → Nat → Nat → SysState →
    SysState × List Nat × Except String (Option String)
  | 0, _, _, _, sys => (sys, [], Except.ok none)
  | fuel + 1, tick, stepCount, lastLen, sys =>
    if eng.doneAt ≤ tick then
      (sys, [], eng.outcome)
    else if stopSet stopAt tick then
      (sendStepUpdate sys taskId StepType.observation
        "Task stopped by user request" none, [], Except.ok none)
    else
      let cur := eng.lenAt tick
      let idxs := if lastLen < cur then List.range' lastLen (cur - lastLen) else []
      let sys1 := idxs.foldl (fun s i => processEntryAt s taskId eng stepCount i) sys
      let lastLen1 := if lastLen < cur then cur else lastLen
      let stepCount1 := stepCount + 1
      if maxSteps < stepCount1 then
        (sendStepUpdate sys1 taskId StepType.error
          ("Task exceeded maximum steps (" ++ toString maxSteps ++
            "). Stopping execution.") none,
         idxs, Except.ok none)
      else
        let r := monitorLoop taskId eng stopAt fuel (tick + 1) stepCount1 lastLen1 sys1
        (r.1, idxs ++ r.2.1, r.2.2)

/-- Entry point of `_run_agent_with_monitoring`: the loop starts with tick
0, `step_count = 0` and `last_history_length = 0`. -/
def runAgentWithMonitoring (sys : SysState) (taskId : String) (eng : EngineRun)
    (stopAt : Option Nat) : SysState × List Nat × Except String (Option String) :=
  monitorLoop taskId eng stopAt (maxSteps + 1) 0 0 0 sys

/-- One engine invocation as configured by `_execute_agent_async`: whether
`Browser(config=...)` construction succeeds or raises, the behaviour of the
constructed run, and whether `browser.close()` in the `finally` block
succeeds (a close failure is only logged). -/
structure EngineSetup where
  browserLaunch : Except String Unit
  run : EngineRun
  closeOk : Bool

/-- Embedding of `_execute_agent_async` (agent_manager.py lines 136-251):
the fixed lifecycle step updates, the browser construction (whose failure
falls to the except branch), the monitored run, the completion handling —
a truthy result and a falsy result both finalize the task `completed`,
any exception finalizes it `failed` with the message
`"Agent execution failed: " ++ e` — and the `finally` block's best-effort
browser close (skipped when the browser was never constructed). -/
def executeAgentAsync (sys : SysState) (taskId prompt : String)
    (setup : EngineSetup) (stopAt : Option Nat) (now : Nat) : SysState :=
  let sys0 := sendStepUpdate sys taskId StepType.thinking
    ("Initializing browser automation for task: " ++ prompt) none
  let sys1 := sendStepUpdate sys0 taskId StepType.action
    "Starting browser session..." none
  match setup.browserLaunch with
  | Except.error e =>
      let msg := "Agent execution failed: " ++ e
      let sys2 := sendStepUpdate sys1 taskId StepType.error msg (some e)
      updateTaskStatus sys2 now taskId TaskStatus.failed (some msg)
  | Except.ok _ =>
      let sys2 := sendStepUpdate sys1 taskId StepType.observation
        "Browser session started successfully" none
      let sys3 := sendStepUpdate sys2 taskId StepType.action
        "Initializing AI agent..." none
      let sys4 := sendStepUpdate sys3 taskId StepType.observation
        "AI agent initialized and ready" none
      let sys5 := sendStepUpdate sys4 taskId StepType.thinking
        "Agent is analyzing the task and planning execution strategy..." none
      let mon := runAgentWithMonitoring sys5 taskId setup.run stopAt
      let sys6 :=
        match mon.2.2 with
        | Except.ok (some r) =>
            updateTaskStatus
              (sendStepUpdate mon.1 taskId StepType.observation
                "Task completed successfully!" (some r))
              now taskId TaskStatus.completed none
        | Except.ok none =>
            updateTaskStatus
              (sendStepUpdate mon.1 taskId StepType.observation
                "Task completed (no specific result returned)" none)
              now taskId TaskStatus.completed none
        | Except.error e =>
            let msg := "Agent execution failed: " ++ e
            updateTaskStatus
              (sendStepUpdate mon.1 taskId StepType.error msg (some e))
              now taskId TaskStatus.failed (some msg)
      let sys7 := sendStepUpdate sys6 taskId StepType.action
        "Closing browser session..." none
      if setup.closeOk then
        sendStepUpdate sys7 taskId StepType.observation
          "Browser session closed" none
      else sys7

/-- In-memory AgentSession bookkeeping: the mirrored status and the two
cooperative control flags. -/
structure AgentSessionM where
  status : TaskStatus
  stopEvent : Bool
  pauseEvent : Bool
deriving DecidableEq

/-- The BrowserUseAgentManager state: the `active_sessions` map plus the
shared persistent state. -/
structure Manager where
  sessions : String → Option AgentSessionM
  sys : SysState

/-- Embedding of `start_agent_session` (agent_manager.py lines 74-109): a
second session for the same task id is rejected before any mutation;
otherwise the task is set to `running`, a session with fresh (cleared)
stop/pause flags is registered and the call reports acceptance. The worker
thread started here runs `executeAgentAsync` asynchronously; its effects
are applied to the shared state separately. -/
def start_agent_session (m : Manager) (taskId prompt : String) (now : Nat) :
    Bool × Manager :=
  if (m.sessions taskId).isSome then
    (false, m)
  else
    let sys1 := updateTaskStatus m.sys now taskId TaskStatus.running none
    let session := AgentSessionM.mk TaskStatus.running false false
    (true,
     Manager.mk (fun t => if t = taskId then some session else m.sessions t) sys1)

/-- Embedding of `stop_agent_session` (agent_manager.py lines 446-492): an
unknown task id is rejected with no state change; otherwise the stop flag
is set and the pause flag cleared on the session the worker observes, the
call joins the worker thread with a 10-second timeout — `join` applies
whatever effects the worker still performs before exiting and reports
whether it exited in time; a missed exit only produces a logged warning
(the third component of the result) — then the task is marked `failed`
with the "Task stopped by user" error, the stop observation is broadcast,
the session is removed and the call reports success. -/
def stop_agent_session (m : Manager) (taskId : String)
    (join : AgentSessionM → SysState → SysState × Bool) (now : Nat) :
    Bool × Manager × Bool :=
  match m.sessions taskId with
  | none => (false, m, false)
  | some s =>
      let signalled := AgentSessionM.mk s.status true false
      let joined := join signalled m.sys
      let warned := !joined.2
      let sys1 := updateTaskStatus joined.1 now taskId TaskStatus.failed
        (some "Task stopped by user")
      let sys2 := sendStepUpdate sys1 taskId StepType.observation
        "Task stopped by user request. Browser session closed." none
      (true,
       Manager.mk (fun t => if t = taskId then none else m.sessions t) sys2,
       warned)

/-- The SocketManager's `active_connections` dictionary: task id to the
list of connected channels (channels are modelled by numeric ids). -/
def SMState : Type := String → Option (List Nat)

/-- The subscriber list currently registered for a task (empty when the
task id is not in the dictionary). -/
def subsOf (m : SMState) (tid : String) : List Nat :=
  (m tid).getD []

/-- Embedding of `SocketManager.connect` (socket_manager.py lines 14-22):
initialise the task's list when absent, then append the channel. -/
def connect (m : SMState) (ws : Nat) (tid : String) : SMState :=
  let cur :=
    match m tid with
    | none => []
    | some l => l
  fun t => if t = tid then some (cur ++ [ws]) else m t

/-- Embedding of `SocketManager.disconnect` (socket_manager.py lines
24-33): when the task id is known, remove the channel's first occurrence if
present, then delete the task's entry if its list became empty. -/
def disconnect (m : SMState) (ws : Nat) (tid : String) : SMState :=
  match m tid with
  | none => m
  | some l =>
      let l1 := if ws ∈ l then l.erase ws else l
      if l1 = [] then fun t => if t = tid then none else m t
      else fun t => if t = tid then some l1 else m t

/-- The delivery loop of `broadcast_to_task`: iterate over the frozen copy
of the connection list; a channel in `fails` raises on send and is removed
via `disconnect`; a successful send is recorded in the delivered list. -/
def deliverAll : List Nat → String → List Nat → SMState → List Nat →
    SMState × List Nat
  | [], _, _, m, acc => (m, acc)
  | ws :: rest, tid, fails, m, acc =>
      if ws ∈ fails then deliverAll rest tid fails (disconnect m ws tid) acc
      else deliverAll rest tid fails m (acc ++ [ws])

/-- Embedding of `SocketManager.broadcast_to_task` (socket_manager.py lines
35-50): no-op when the task has no connections; otherwise deliver to every
channel in a copy of the list, pruning the ones whose send raises. The
`fails` parameter is the set of channels whose send raises. Returns the new
state and the channels that received the message. -/
def broadcast_to_task (m : SMState) (tid : String) (fails : List Nat) :
    SMState × List Nat :=
  match m tid with
  | none => (m, [])
  | some conns => deliverAll conns tid fails m []

/-- An engine run that is still not done after any number of poll ticks and
whose history stays empty — a runaway execution. -/
def engNeverDone : EngineRun := EngineRun.mk [] (fun _ => 0) 1000 (Except.ok none)

/-- A setup whose browser launch and close succeed, running `engNeverDone`. -/
def setupPlain : EngineSetup := EngineSetup.mk (Except.ok ()) engNeverDone true

/-- A state whose task table holds exactly one task. -/
def sysT (tid : String) (st : TaskStatus) : SysState :=
  SysState.mk (fun t => if t = tid then some (TaskRecord.mk st none none) else none) [] []

/-- A state with an empty task table and empty logs. -/
def sysEmpty : SysState := SysState.mk (fun _ => none) [] []

/-- Whether an event is a status-change broadcast writing `failed` for the
given task. -/
def isFailedWrite (tid : String) (e : Event) : Bool :=
  match e with
  | Event.statusChange t TaskStatus.failed _ => t == tid
  | _ => false

/-- The terminal-status writes recorded for a task: status-change events
whose status is `completed` or `failed`, in write order. -/
def terminalWriteEvents (evs : List Event) (tid : String) : List Event :=
  evs.filter (fun e =>
    match e with
    | Event.statusChange t st _ => t == tid && isTerminal st
    | _ => false)

/-- The number of terminal-status writes recorded for a task. -/
def terminalWrites (evs : List Event) (tid : String) : Nat :=
  (terminalWriteEvents evs tid).length

/-- The state produced by running the worker for task "T" against a
runaway engine: the step cap triggers. -/
def outC2 : SysState :=
  executeAgentAsync (sysT "T" TaskStatus.running) "T" "p" setupPlain none 7

/-- A manager holding one pending task "T" and no sessions. -/
def mC3 : Manager := Manager.mk (fun _ => none) (sysT "T" TaskStatus.pending)

/-- The worker joined during a stop that was requested before the worker
started: the whole run executes with the stop flag already set. -/
def joinC3 : AgentSessionM → SysState → SysState × Bool :=
  fun _ sys => (executeAgentAsync sys "T" "p" setupPlain (some 0) 1, true)

/-- Start task "T", then stop it immediately; the worker exits in time. -/
def stopC3 : Bool × Manager × Bool :=
  stop_agent_session (start_agent_session mC3 "T" "p" 0).2 "T" joinC3 2

/-- A history entry with no classifiable content whose inspection raises no
exception. -/
def entrySilent : HistoryEntry := HistoryEntry.mk none none none false "opaque entry"

/-- An engine whose history gains exactly one entry (`entrySilent`) after
the first poll tick and whose run finishes at tick 5. -/
def engOneSilent : EngineRun :=
  EngineRun.mk [entrySilent] (fun t => min t 1) 5 (Except.ok none)

/-- An engine whose run raises immediately with message "timeout". -/
def engRaisesTimeout : EngineRun := EngineRun.mk [] (fun _ => 0) 0 (Except.error "timeout")

/-- The socket manager with no connections. -/
def smEmpty : SMState := fun _ => none

/-- The socket manager after channel 5 connected to task "T" once. -/
def smOnce : SMState := connect smEmpty 5 "T"

/-- A manager holding a pending task "T1" and no sessions. -/
def mW : Manager := Manager.mk (fun _ => none) (sysT "T1" TaskStatus.pending)

/-- A manager with a running task "T3" and a live session for it. -/
def mStop : Manager :=
  Manager.mk
    (fun t => if t = "T3" then some (AgentSessionM.mk TaskStatus.running false false) else none)
    (sysT "T3" TaskStatus.running)

/-- Basic fact: persisting a step update leaves the task table alone. -/
theorem sendStepUpdate_db (sys : SysState) (t : String) (st : StepType)
    (msg : String) (ex : Option String) : (sendStepUpdate sys t st msg ex).db = sys.db :=
  rfl

/-- Basic fact: a status update leaves the step log alone. -/
theorem updateTaskStatus_steps (sys : SysState) (now : Nat) (tid : String)
    (st : TaskStatus) (err : Option String) :
    (updateTaskStatus sys now tid st err).steps = sys.steps := by
  cases h : sys.db tid <;> simp [updateTaskStatus, h]

/-- C9: for a task id with no record in the task table, every status
update — including the terminal writes of the stop and failure paths — is
a silent no-op: the state (table, step log, event log) is returned exactly
as it was, so no record is created, nothing is broadcast and no error is
raised; and `stop_agent_session` on a live session still reports success
even though its terminal write found no record. -/
theorem missing_task_updates_are_noops :
    ∀ (sys : SysState) (now : Nat) (tid : String) (st : TaskStatus)
      (err : Option String),
    sys.db tid = none →
    updateTaskStatus sys now tid st err = sys ∧
    (∀ (m : Manager) (join : AgentSessionM → SysState → SysState × Bool)
       (n2 : Nat), m.sys = sys → (m.sessions tid).isSome →
       (stop_agent_session m tid join n2).1 = true) := by
  intro sys now tid st err h
  refine ⟨by simp [updateTaskStatus, h], ?_⟩
  intro m join n2 _ hs
  cases ho : m.sessions tid with
  | none => rw [ho] at hs; simp at hs
  | some s => simp [stop_agent_session, ho]

/-- Witness for C9 at a concrete input: an empty task table, task id "Z",
and a manager with a live "Z" session over the empty table. -/
theorem missing_task_updates_are_noops_witness :
    updateTaskStatus sysEmpty 3 "Z" TaskStatus.failed (some "x") = sysEmpty ∧
    (stop_agent_session
      (Manager.mk
        (fun t => if t = "Z" then some (AgentSessionM.mk TaskStatus.running false false)
         else none)
        sysEmpty)
      "Z" (fun _ sys => (sys, true)) 4).1 = true := by
  have h := missing_task_updates_are_noops sysEmpty 3 "Z" TaskStatus.failed (some "x") rfl
  exact ⟨h.1, h.2 _ (fun _ sys => (sys, true)) 4 rfl rfl⟩

/-- C1: `start_agent_session` on an already-active task id returns false
with the manager unchanged; on a fresh task id it returns true, registers
a session with status `running` and cleared stop/pause flags, transitions
the task record to `running` (touching neither error_message nor
completed_at), and a second start without an intervening terminal state
then returns false with no state change. -/
theorem start_session_mutual_exclusion :
    ∀ (m : Manager) (tid p : String) (now : Nat),
    ((m.sessions tid).isSome → start_agent_session m tid p now = (false, m)) ∧
    (m.sessions tid = none →
      (start_agent_session m tid p now).1 = true ∧
      (start_agent_session m tid p now).2.sessions tid =
        some (AgentSessionM.mk TaskStatus.running false false) ∧
      (∀ rec, m.sys.db tid = some rec →
        (start_agent_session m tid p now).2.sys.db tid =
          some (TaskRecord.mk TaskStatus.running rec.errorMessage rec.completedAt)) ∧
      start_agent_session (start_agent_session m tid p now).2 tid p now =
        (false, (start_agent_session m tid p now).2)) := by
  intro m tid p now
  constructor
  · intro h
    simp [start_agent_session, h]
  · intro h
    refine ⟨by simp [start_agent_session, h], by simp [start_agent_session, h], ?_, ?_⟩
    · intro rec hrec
      simp [start_agent_session, h, updateTaskStatus, hrec, isTerminal]
    · simp [start_agent_session, h]

/-- Witness for C1 at a concrete input: a manager with no sessions and a
pending task "T1"; the first start returns true, the second false. -/
theorem start_session_mutual_exclusion_witness :
    (start_agent_session mW "T1" "X" 0).1 = true ∧
    (start_agent_session mW "T1" "X" 0).2.sessions "T1" =
      some (AgentSessionM.mk TaskStatus.running false false) ∧
    start_agent_session (start_agent_session mW "T1" "X" 0).2 "T1" "X" 0 =
      (false, (start_agent_session mW "T1" "X" 0).2) := by
  have h := (start_session_mutual_exclusion mW "T1" "X" 0).2 rfl
  exact ⟨h.1, h.2.1, h.2.2.2⟩

/-- C10: `start_agent_session` reports acceptance as soon as the worker is
launched — its boolean depends only on session presence, never on the
browser or engine (which it does not even receive) — and a failure after
acceptance, here the browser construction raising, surfaces only as a
later `failed` task record carrying `"Agent execution failed: ..."` plus a
persisted error step, produced by the worker body. -/
theorem acceptance_precedes_engine :
    ∀ (m : Manager) (tid p : String) (now : Nat),
    (m.sessions tid = none → (start_agent_session m tid p now).1 = true) ∧
    (∀ (sys : SysState) (e : String) (run : EngineRun) (closeOk : Bool)
       (stopAt : Option Nat) (n2 : Nat) (rec : TaskRecord),
       sys.db tid = some rec →
       (executeAgentAsync sys tid p (EngineSetup.mk (Except.error e) run closeOk)
         stopAt n2).db tid =
         some (TaskRecord.mk TaskStatus.failed
           (some ("Agent execution failed: " ++ e)) (some n2)) ∧
       StepRecord.mk tid StepType.error ("Agent execution failed: " ++ e) (some e) ∈
         (executeAgentAsync sys tid p (EngineSetup.mk (Except.error e) run closeOk)
           stopAt n2).steps) := by
  intro m tid p now
  constructor
  · intro h
    simp [start_agent_session, h]
  · intro sys e run closeOk stopAt n2 rec hrec
    constructor
    · simp [executeAgentAsync, sendStepUpdate, updateTaskStatus, hrec, isTerminal]
    · simp [executeAgentAsync, sendStepUpdate, updateTaskStatus, hrec, isTerminal]

/-- Witness for C10 at a concrete input: the pending task "T1" of `mW`;
start accepts, and a worker whose browser launch raises "boom" leaves a
failed record and an error step. -/
theorem acceptance_precedes_engine_witness :
    (start_agent_session mW "T1" "X" 0).1 = true ∧
    (executeAgentAsync (sysT "T1" TaskStatus.running) "T1" "X"
      (EngineSetup.mk (Except.error "boom") engNeverDone true) none 5).db "T1" =
      some (TaskRecord.mk TaskStatus.failed
        (some ("Agent execution failed: " ++ "boom")) (some 5)) := by
  have h := acceptance_precedes_engine mW "T1" "X" 0
  exact ⟨h.1 rfl,
    (h.2 (sysT "T1" TaskStatus.running) "boom" engNeverDone true none 5
      (TaskRecord.mk TaskStatus.running none none) rfl).1⟩

/-- C4: `stop_agent_session` on an unknown (or already stopped, hence
removed) task id returns false with no state change; on a live session it
hands the worker a session whose stop flag is set and pause flag cleared,
reports a warning exactly when the joined worker fails to exit within the
grace period, always marks the task `failed` with the "Task stopped by
user" error, removes the session, returns true — and a second stop then
returns false with no state change. -/
theorem stop_session_contract :
    ∀ (m : Manager) (tid : String)
      (join : AgentSessionM → SysState → SysState × Bool) (now : Nat),
    (m.sessions tid = none → stop_agent_session m tid join now = (false, m, false)) ∧
    (∀ s, m.sessions tid = some s →
      (stop_agent_session m tid join now).1 = true ∧
      (stop_agent_session m tid join now).2.1.sessions tid = none ∧
      (stop_agent_session m tid join now).2.2 =
        !(join (AgentSessionM.mk s.status true false) m.sys).2 ∧
      (∀ rec, (join (AgentSessionM.mk s.status true false) m.sys).1.db tid = some rec →
        (stop_agent_session m tid join now).2.1.sys.db tid =
          some (TaskRecord.mk TaskStatus.failed (some "Task stopped by user")
            (some now))) ∧
      stop_agent_session (stop_agent_session m tid join now).2.1 tid join now =
        (false, (stop_agent_session m tid join now).2.1, false)) := by
  intro m tid join now
  constructor
  · intro h
    simp [stop_agent_session, h]
  · intro s hs
    refine ⟨by simp [stop_agent_session, hs], by simp [stop_agent_session, hs],
      by simp [stop_agent_session, hs], ?_, ?_⟩
    · intro rec hrec
      simp [stop_agent_session, hs, sendStepUpdate, updateTaskStatus, hrec, isTerminal]
    · simp [stop_agent_session, hs]

/-- Witness for C4 at a concrete input: the live session "T3" of `mStop`
with a worker that exits in time and leaves the state alone; the stop
returns true with no warning, marks the record failed and is then
idempotent. -/
theorem stop_session_contract_witness :
    (stop_agent_session mStop "T3" (fun _ sys => (sys, true)) 9).1 = true ∧
    (stop_agent_session mStop "T3" (fun _ sys => (sys, true)) 9).2.2 = false ∧
    (stop_agent_session mStop "T3" (fun _ sys => (sys, true)) 9).2.1.sys.db "T3" =
      some (TaskRecord.mk TaskStatus.failed (some "Task stopped by user") (some 9)) ∧
    stop_agent_session
      (stop_agent_session mStop "T3" (fun _ sys => (sys, true)) 9).2.1 "T3"
      (fun _ sys => (sys, true)) 9 =
      (false, (stop_agent_session mStop "T3" (fun _ sys => (sys, true)) 9).2.1, false) := by
  have h := (stop_session_contract mStop "T3" (fun _ sys => (sys, true)) 9).2
    (AgentSessionM.mk TaskStatus.running false false) rfl
  exact ⟨h.1, h.2.2.1, h.2.2.2.1 (TaskRecord.mk TaskStatus.running none none) rfl,
    h.2.2.2.2⟩

/-- Emitting the updates of one entry leaves the task table alone. -/
theorem emitSteps_db :
    ∀ (outs : List (StepType × String × Option String)) (sys : SysState)
      (taskId : String), (emitSteps sys taskId outs).db = sys.db := by
  intro outs
  induction outs with
  | nil => intro sys tid; rfl
  | cons o rest ih =>
      intro sys tid
      show (emitSteps (sendStepUpdate sys tid o.1 o.2.1 o.2.2) tid rest).db = sys.db
      rw [ih, sendStepUpdate_db]

/-- Processing one history index leaves the task table alone. -/
theorem processEntryAt_db (sys : SysState) (taskId : String) (eng : EngineRun)
    (stepCount i : Nat) : (processEntryAt sys taskId eng stepCount i).db = sys.db := by
  cases h : eng.hist[i]? <;> simp [processEntryAt, h, emitSteps_db]

/-- Processing a batch of history indices leaves the task table alone. -/
theorem foldlProcess_db :
    ∀ (idxs : List Nat) (sys : SysState) (taskId : String) (eng : EngineRun)
      (stepCount : Nat),
    (idxs.foldl (fun s i => processEntryAt s taskId eng stepCount i) sys).db = sys.db := by
  intro idxs
  induction idxs with
  | nil => intro sys tid eng sc; rfl
  | cons j rest ih =>
      intro sys tid eng sc
      show (rest.foldl (fun s i => processEntryAt s tid eng sc i)
        (processEntryAt sys tid eng sc j)).db = sys.db
      rw [ih, processEntryAt_db]

/-- The monitor loop leaves the task table alone: it only appends steps and
events. -/
theorem monitorLoop_db :
    ∀ (fuel : Nat) (taskId : String) (eng : EngineRun) (stopAt : Option Nat)
      (tick stepCount lastLen : Nat) (sys : SysState),
    (monitorLoop taskId eng stopAt fuel tick stepCount lastLen sys).1.db = sys.db := by
  intro fuel
  induction fuel with
  | zero => intro taskId eng stopAt tick sc ll sys; rfl
  | succ f ih =>
      intro taskId eng stopAt tick sc ll sys
      by_cases hd : eng.doneAt ≤ tick
      · simp [monitorLoop, hd]
      · by_cases hs : stopSet stopAt tick = true
        · simp [monitorLoop, hd, hs, sendStepUpdate]
        · by_cases hcap : maxSteps < sc + 1
          · simp [monitorLoop, hd, hs, hcap, sendStepUpdate, foldlProcess_db]
          · simp [monitorLoop, hd, hs, hcap, ih, foldlProcess_db]

/-- When the stop flag is never set and the run finishes before the step
cap can fire, the monitor loop surfaces exactly the engine's own outcome:
the value `await agent_task` produces, or the exception it raises. -/
theorem monitorLoop_outcome_of_done :
    ∀ (fuel : Nat) (taskId : String) (eng : EngineRun)
      (tick stepCount lastLen : Nat) (sys : SysState),
    tick ≤ eng.doneAt →
    eng.doneAt - tick < fuel →
    stepCount + (eng.doneAt - tick) ≤ maxSteps →
    (monitorLoop taskId eng none fuel tick stepCount lastLen sys).2.2 = eng.outcome := by
  intro fuel
  induction fuel with
  | zero =>
      intro taskId eng tick stepCount lastLen sys h1 h2 h3
      omega
  | succ f ih =>
      intro taskId eng tick stepCount lastLen sys h1 h2 h3
      by_cases hd : eng.doneAt ≤ tick
      · simp [monitorLoop, hd]
      · have ht : tick < eng.doneAt := Nat.lt_of_not_le hd
        have hcap : ¬ maxSteps < stepCount + 1 := by omega
        simp only [monitorLoop, if_neg hd, stopSet, Bool.false_eq_true, if_false]
        simp only [if_neg hcap]
        exact ih taskId eng (tick + 1) (stepCount + 1)
          (if lastLen < eng.lenAt tick then eng.lenAt tick else lastLen)
          _ (by omega) (by omega) (by omega)

/-- C8: any exception the engine raises during the run (completing the run
at a tick the monitor reaches before the cap) is caught at the worker
boundary and finalizes the task as `failed`, with the exception's message
captured verbatim inside `error_message` as
`"Agent execution failed: " ++ msg`; no exception escapes — the embedded
worker is a total function into states, and registry operations return
booleans. -/
theorem engine_exception_finalizes_failed :
    ∀ (sys : SysState) (tid p : String) (run : EngineRun) (closeOk : Bool)
      (now : Nat) (msg : String) (rec : TaskRecord),
    run.outcome = Except.error msg →
    run.doneAt ≤ maxSteps →
    sys.db tid = some rec →
    (executeAgentAsync sys tid p (EngineSetup.mk (Except.ok ()) run closeOk)
      none now).db tid =
      some (TaskRecord.mk TaskStatus.failed
        (some ("Agent execution failed: " ++ msg)) (some now)) := by
  intro sys tid p run closeOk now msg rec hout hdone hrec
  have hmon : ∀ s : SysState,
      (runAgentWithMonitoring s tid run none).2.2 = Except.error msg := by
    intro s
    rw [runAgentWithMonitoring, monitorLoop_outcome_of_done (maxSteps + 1) tid run
      0 0 0 s (Nat.zero_le _) (by omega) (by omega)]
    exact hout
  have hdb : ∀ s : SysState, (runAgentWithMonitoring s tid run none).1.db = s.db := by
    intro s
    exact monitorLoop_db (maxSteps + 1) tid run none 0 0 0 s
  cases closeOk <;>
    simp [executeAgentAsync, hmon, hdb, sendStepUpdate, updateTaskStatus, hrec,
      isTerminal]

/-- Witness for C8 at a concrete input: the T4 scenario — an engine raising
with message "timeout" — ends with status `failed` and an error_message
containing "timeout". -/
theorem engine_exception_finalizes_failed_witness :
    (executeAgentAsync (sysT "T4" TaskStatus.running) "T4" "X"
      (EngineSetup.mk (Except.ok ()) engRaisesTimeout true) none 6).db "T4" =
      some (TaskRecord.mk TaskStatus.failed
        (some ("Agent execution failed: " ++ "timeout")) (some 6)) := by
  exact engine_exception_finalizes_failed (sysT "T4" TaskStatus.running) "T4" "X"
    engRaisesTimeout true 6 "timeout" (TaskRecord.mk TaskStatus.running none none)
    rfl (by decide) rfl

/-- Counterexample to C3 as stated: start task "T" and stop it immediately
(the stop flag is set before the worker's monitor loop starts). The worker
observes the stop flag, gets a `None` result and finalizes the task
`completed`; after joining the worker, `stop_agent_session` writes `failed`
on top — two terminal-status writes by two writers for the same task, so
terminal finalization is neither unique nor single-writer. -/
theorem second_terminal_write_happens :
    terminalWriteEvents stopC3.2.1.sys.events "T" =
      [Event.statusChange "T" TaskStatus.completed none,
       Event.statusChange "T" TaskStatus.failed (some "Task stopped by user")] ∧
    terminalWrites stopC3.2.1.sys.events "T" = 2 := by
  constructor
  · decide
  · decide

/-- C3 (amended): completed_at and terminal status are set together — every
write of a terminal status to an existing record also sets completed_at in
that same write, and a non-terminal write never touches completed_at — but
such a write is not unique: the same task can receive a second
terminal-status write (see the counterexample trace, where the runner
finalizes `completed` and the stop path then writes `failed`). -/
theorem terminal_write_sets_completed_at :
    ∀ (sys : SysState) (now : Nat) (tid : String) (st : TaskStatus)
      (err : Option String) (rec : TaskRecord),
    sys.db tid = some rec →
    (isTerminal st = true →
      (updateTaskStatus sys now tid st err).db tid =
        some (TaskRecord.mk st
          (match err with | some e => some e | none => rec.errorMessage)
          (some now))) ∧
    (isTerminal st = false →
      (updateTaskStatus sys now tid st err).db tid =
        some (TaskRecord.mk st
          (match err with | some e => some e | none => rec.errorMessage)
          rec.completedAt)) := by
  intro sys now tid st err rec hrec
  constructor
  · intro ht
    cases err <;> simp [updateTaskStatus, hrec, ht]
  · intro ht
    cases err <;> simp [updateTaskStatus, hrec, ht]

/-- Witness for the amended C3 at a concrete input: writing `failed` to the
running task "T1" sets completed_at in the same write, and writing `paused`
leaves completed_at untouched. -/
theorem terminal_write_sets_completed_at_witness :
    (updateTaskStatus (sysT "T1" TaskStatus.running) 4 "T1" TaskStatus.failed
      (some "boom")).db "T1" =
      some (TaskRecord.mk TaskStatus.failed (some "boom") (some 4)) ∧
    (updateTaskStatus (sysT "T1" TaskStatus.running) 4 "T1" TaskStatus.paused
      none).db "T1" =
      some (TaskRecord.mk TaskStatus.paused none none) := by
  have h1 := terminal_write_sets_completed_at (sysT "T1" TaskStatus.running) 4 "T1"
    TaskStatus.failed (some "boom") (TaskRecord.mk TaskStatus.running none none) rfl
  have h2 := terminal_write_sets_completed_at (sysT "T1" TaskStatus.running) 4 "T1"
    TaskStatus.paused none (TaskRecord.mk TaskStatus.running none none) rfl
  exact ⟨h1.1 rfl, h2.2 rfl⟩

set_option maxRecDepth 4000 in
/-- C2 evaluated at the failing input: a runaway engine (still running
after every poll tick, history empty) drives `step_count` past the cap.
The monitor cancels the run and emits the error step
"Task exceeded maximum steps (50). Stopping execution." — but it returns a
`None` result, which the worker's completion handling finalizes as status
`completed` with completed_at set and no error_message, and no `failed`
status write for the task ever occurs. The spec requires status `failed`
carrying the step-cap message. -/
theorem cap_exceeded_finalizes_completed :
    outC2.db "T" = some (TaskRecord.mk TaskStatus.completed none (some 7)) ∧
    StepRecord.mk "T" StepType.error
      "Task exceeded maximum steps (50). Stopping execution." none ∈ outC2.steps ∧
    outC2.events.all (fun e => !(isFailedWrite "T" e)) = true := by
  refine ⟨by decide, by decide, by decide⟩

/-- One unfolding of the monitor loop, restricted to the list of processed
history indices, in the non-done non-stopped case. -/
theorem monitorLoop_processed_succ (taskId : String) (eng : EngineRun)
    (stopAt : Option Nat) (f tick sc ll : Nat) (sys : SysState)
    (hd : ¬ eng.doneAt ≤ tick) (hs : ¬ stopSet stopAt tick = true) :
    (monitorLoop taskId eng stopAt (f + 1) tick sc ll sys).2.1 =
      (if ll < eng.lenAt tick then List.range' ll (eng.lenAt tick - ll) else []) ++
      (if maxSteps < sc + 1 then []
       else (monitorLoop taskId eng stopAt f (tick + 1) (sc + 1)
         (if ll < eng.lenAt tick then eng.lenAt tick else ll)
         ((if ll < eng.lenAt tick then List.range' ll (eng.lenAt tick - ll)
           else []).foldl (fun s i => processEntryAt s taskId eng sc i) sys)).2.1) := by
  by_cases hcap : maxSteps < sc + 1 <;>
    simp [monitorLoop, hd, hs, hcap]

/-- Every history index the monitor loop processes is at or beyond the
cursor it started from, and the processed indices are strictly increasing —
so no index is ever processed twice. -/
theorem monitorLoop_processed_bounds :
    ∀ (fuel : Nat) (taskId : String) (eng : EngineRun) (stopAt : Option Nat)
      (tick stepCount lastLen : Nat) (sys : SysState),
    (∀ i ∈ (monitorLoop taskId eng stopAt fuel tick stepCount lastLen sys).2.1,
      lastLen ≤ i) ∧
    List.Pairwise (fun a b => a < b)
      (monitorLoop taskId eng stopAt fuel tick stepCount lastLen sys).2.1 := by
  intro fuel
  induction fuel with
  | zero =>
      intro taskId eng stopAt tick sc ll sys
      constructor
      · intro i hi
        simp [monitorLoop] at hi
      · simp [monitorLoop]
  | succ f ih =>
      intro taskId eng stopAt tick sc ll sys
      by_cases hd : eng.doneAt ≤ tick
      · constructor
        · intro i hi
          simp [monitorLoop, hd] at hi
        · simp [monitorLoop, hd]
      · by_cases hs : stopSet stopAt tick = true
        · constructor
          · intro i hi
            simp [monitorLoop, hd, hs] at hi
          · simp [monitorLoop, hd, hs]
        · rw [monitorLoop_processed_succ taskId eng stopAt f tick sc ll sys hd hs]
          by_cases hlt : ll < eng.lenAt tick
          · by_cases hcap : maxSteps < sc + 1
            · constructor
              · intro i hi
                simp [hlt, hcap, List.mem_range'_1] at hi
                omega
              · simp [hlt, hcap]
                exact List.pairwise_lt_range' ll (eng.lenAt tick - ll)
            · have IH := ih taskId eng stopAt (tick + 1) (sc + 1) (eng.lenAt tick)
                ((List.range' ll (eng.lenAt tick - ll)).foldl
                  (fun s i => processEntryAt s taskId eng sc i) sys)
              constructor
              · intro i hi
                simp [hlt, hcap, List.mem_range'_1] at hi
                rcases hi with hi | hi
                · omega
                · have := IH.1 i (by simpa [hlt] using hi)
                  omega
              · simp only [if_pos hlt, if_neg hcap]
                rw [List.pairwise_append]
                refine ⟨List.pairwise_lt_range' ll (eng.lenAt tick - ll),
                  by simpa [hlt] using IH.2, ?_⟩
                intro a ha b hb
                have ha' := List.mem_range'_1.mp ha
                have hb' := IH.1 b (by simpa [hlt] using hb)
                omega
          · by_cases hcap : maxSteps < sc + 1
            · constructor
              · intro i hi
                simp [hlt, hcap] at hi
              · simp [hlt, hcap]
            · have IH := ih taskId eng stopAt (tick + 1) (sc + 1) ll
                (([] : List Nat).foldl (fun s i => processEntryAt s taskId eng sc i) sys)
              constructor
              · intro i hi
                exact IH.1 i (by simpa [hlt, hcap] using hi)
              · simpa [hlt, hcap] using IH.2

/-- Counterexample to C5 as stated: the engine `engOneSilent` appends one
history entry — `entrySilent`, which has no model_output, result or error
field, and whose inspection raises no exception. The monitor observes and
processes exactly that entry (processed index list `[0]`), yet the step log
stays empty: the entry emits no Step at all, not the claimed generic Step
with the raw serialized entry. -/
theorem silent_entry_emits_no_step :
    (runAgentWithMonitoring sysEmpty "T" engOneSilent none).2.1 = [0] ∧
    (runAgentWithMonitoring sysEmpty "T" engOneSilent none).1.steps = [] := by
  refine ⟨by decide, by decide⟩

/-- C5 (amended): the monitor never re-emits an already-seen entry — the
history indices it processes are strictly increasing, hence each entry is
processed at most once — and an entry whose inspection raises an exception
emits exactly the generic Step carrying the raw serialized entry; but an
entry with no classifiable content whose inspection raises no exception
emits no Step at all and is silently dropped. -/
theorem monitor_processes_entries_at_most_once :
    (∀ (taskId : String) (eng : EngineRun) (stopAt : Option Nat)
       (fuel tick stepCount lastLen : Nat) (sys : SysState),
      List.Pairwise (fun a b => a < b)
        (monitorLoop taskId eng stopAt fuel tick stepCount lastLen sys).2.1) ∧
    (∀ (mo : Option ModelOutput) (r er : Option String) (raw : String) (n : Nat),
      process_history_entry (HistoryEntry.mk mo r er true raw) n =
        [(StepType.observation, "Agent executed step " ++ toString (n + 1), some raw)]) ∧
    (∀ (raw : String) (n : Nat),
      process_history_entry (HistoryEntry.mk none none none false raw) n = []) := by
  refine ⟨?_, ?_, ?_⟩
  · intro taskId eng stopAt fuel tick sc ll sys
    exact (monitorLoop_processed_bounds fuel taskId eng stopAt tick sc ll sys).2
  · intro mo r er raw n
    rfl
  · intro raw n
    rfl

/-- Invariant of the delivery loop: while iterating over the frozen copy,
the live dictionary entry for the task is the already-kept (non-failing)
prefix followed by the not-yet-visited suffix; at the end the delivered
list is the accumulator plus the non-failing part of the suffix, the
dictionary holds exactly the kept and surviving channels, and no other
task's entry is touched. -/
theorem deliverAll_spec :
    ∀ (rest : List Nat) (tid : String) (fails : List Nat) (m : SMState)
      (kept acc : List Nat),
    (m tid = some (kept ++ rest) ∨ (kept = [] ∧ rest = [] ∧ m tid = none)) →
    (∀ w ∈ kept, ¬ w ∈ fails) →
    (deliverAll rest tid fails m acc).2 =
      acc ++ rest.filter (fun w => decide (w ∉ fails)) ∧
    subsOf (deliverAll rest tid fails m acc).1 tid =
      kept ++ rest.filter (fun w => decide (w ∉ fails)) ∧
    (∀ t, t ≠ tid → (deliverAll rest tid fails m acc).1 t = m t) := by
  intro rest
  induction rest with
  | nil =>
      intro tid fails m kept acc h hkept
      refine ⟨by simp [deliverAll], ?_, by intro t ht; rfl⟩
      rcases h with h | ⟨h1, _, h3⟩
      · simp [deliverAll, subsOf, h]
      · simp [deliverAll, subsOf, h1, h3]
  | cons ws rest ih =>
      intro tid fails m kept acc h hkept
      rcases h with h | ⟨_, h2, _⟩
      · by_cases hw : ws ∈ fails
        · have hwk : ws ∉ kept := fun hk => hkept ws hk hw
          have hmem : ws ∈ kept ++ ws :: rest :=
            List.mem_append_right kept (List.mem_cons_self ws rest)
          have herase : (kept ++ ws :: rest).erase ws = kept ++ rest := by
            rw [List.erase_append_right _ hwk, List.erase_cons_head]
          by_cases hnil : kept ++ rest = []
          · have hk0 : kept = [] := (List.append_eq_nil.mp hnil).1
            have hr0 : rest = [] := (List.append_eq_nil.mp hnil).2
            have hstep : deliverAll (ws :: rest) tid fails m acc =
                deliverAll rest tid fails (disconnect m ws tid) acc := by
              simp [deliverAll, hw]
            have hdisc : disconnect m ws tid =
                fun t => if t = tid then none else m t := by
              simp [disconnect, h, hmem, herase, hnil]
            have IH := ih tid fails (fun t => if t = tid then none else m t) [] acc
              (Or.inr ⟨rfl, hr0, by simp⟩) (by intro w hwmem; simp at hwmem)
            rw [hstep, hdisc]
            refine ⟨?_, ?_, ?_⟩
            · rw [IH.1]
              simp [hw, hr0]
            · rw [IH.2.1]
              simp [hk0, hr0, hw]
            · intro t ht
              rw [IH.2.2 t ht]
              simp [ht]
          · have hstep : deliverAll (ws :: rest) tid fails m acc =
                deliverAll rest tid fails (disconnect m ws tid) acc := by
              simp [deliverAll, hw]
            have hdisc : disconnect m ws tid =
                fun t => if t = tid then some (kept ++ rest) else m t := by
              simp [disconnect, h, hmem, herase, hnil]
            have IH := ih tid fails
              (fun t => if t = tid then some (kept ++ rest) else m t) kept acc
              (Or.inl (by simp)) hkept
            rw [hstep, hdisc]
            refine ⟨?_, ?_, ?_⟩
            · rw [IH.1]
              simp [hw]
            · rw [IH.2.1]
              simp [hw]
            · intro t ht
              rw [IH.2.2 t ht]
              simp [ht]
        · have hstep : deliverAll (ws :: rest) tid fails m acc =
              deliverAll rest tid fails m (acc ++ [ws]) := by
            simp [deliverAll, hw]
          have IH := ih tid fails m (kept ++ [ws]) (acc ++ [ws])
            (Or.inl (by simpa using h))
            (by
              intro w hwmem
              rcases List.mem_append.mp hwmem with hk | hk
              · exact hkept w hk
              · simp at hk
                subst hk
                exact hw)
          rw [hstep]
          refine ⟨?_, ?_, IH.2.2⟩
          · rw [IH.1]
            simp [hw]
          · rw [IH.2.1]
            simp [hw]
      · cases h2

/-- C6: `broadcast_to_task` delivers to every currently-registered
subscriber whose send succeeds, removes exactly the subscribers whose send
raises, keeps delivering to the rest after any failure, never touches
other tasks' subscriber lists, and — being a total function — never fails
as a whole because one subscriber fails. -/
theorem publish_prunes_and_continues :
    ∀ (m : SMState) (tid : String) (fails : List Nat),
    (broadcast_to_task m tid fails).2 =
      (subsOf m tid).filter (fun w => decide (w ∉ fails)) ∧
    subsOf (broadcast_to_task m tid fails).1 tid =
      (subsOf m tid).filter (fun w => decide (w ∉ fails)) ∧
    (∀ t, t ≠ tid → (broadcast_to_task m tid fails).1 t = m t) := by
  intro m tid fails
  cases h : m tid with
  | none =>
      refine ⟨by simp [broadcast_to_task, h, subsOf], ?_, by intro t ht; simp [broadcast_to_task, h]⟩
      simp [broadcast_to_task, h, subsOf]
  | some conns =>
      have hb : broadcast_to_task m tid fails = deliverAll conns tid fails m [] := by
        simp [broadcast_to_task, h]
      have hs := deliverAll_spec conns tid fails m [] []
        (Or.inl (by simpa using h)) (by intro w hwmem; simp at hwmem)
      rw [hb]
      refine ⟨?_, ?_, hs.2.2⟩
      · rw [hs.1]
        simp [subsOf, h]
      · rw [hs.2.1]
        simp [subsOf, h]

/-- Witness for C6 at a concrete input: task "T" has subscribers 5 and 6;
channel 5's send raises. 6 still receives the message, 5 is pruned, and
task "U" is untouched. -/
theorem publish_prunes_and_continues_witness :
    (broadcast_to_task (connect smOnce 6 "T") "T" [5]).2 = [6] ∧
    subsOf (broadcast_to_task (connect smOnce 6 "T") "T" [5]).1 "T" = [6] ∧
    (broadcast_to_task (connect smOnce 6 "T") "T" [5]).1 "U" = connect smOnce 6 "T" "U" := by
  have h := publish_prunes_and_continues (connect smOnce 6 "T") "T" [5]
  refine ⟨?_, ?_, h.2.2 "U" (by decide)⟩
  · rw [h.1]
    decide
  · rw [h.2.1]
    decide

/-- Counterexample to C7 as stated: channel 5 is already subscribed to task
"T" (subscriber list `[5]`), and subscribing it again does not leave the
subscriber set unchanged — `connect` appends unconditionally, yielding the
duplicate list `[5, 5]`. -/
theorem connect_duplicates_subscriber :
    subsOf smOnce "T" = [5] ∧ subsOf (connect smOnce 5 "T") "T" = [5, 5] := by
  refine ⟨by decide, by decide⟩

/-- C7 (amended): `disconnect` is idempotent — disconnecting a channel that
is not registered (the task is unknown, or its nonempty list does not
contain the channel) leaves the whole state unchanged — but `connect` is
not: connecting a channel to a task it is already subscribed to appends a
duplicate entry to that task's subscriber list. -/
theorem unsubscribe_idempotent_subscribe_not :
    ∀ (m : SMState) (ws : Nat) (tid : String),
    (m tid = none → disconnect m ws tid = m) ∧
    (∀ l, m tid = some l → ¬ ws ∈ l → l ≠ [] → disconnect m ws tid = m) ∧
    (∀ l, m tid = some l → subsOf (connect m ws tid) tid = l ++ [ws]) := by
  intro m ws tid
  refine ⟨?_, ?_, ?_⟩
  · intro h
    simp [disconnect, h]
  · intro l hl hmem hnil
    funext t
    by_cases ht : t = tid
    · subst ht
      simp [disconnect, hl, hmem, hnil]
    · simp [disconnect, hl, hmem, hnil, ht]
  · intro l hl
    simp [connect, hl, subsOf]

/-- Witness for the amended C7 at a concrete input: disconnecting the
unsubscribed channel 7 from "T" (list `[5]`) changes nothing, and
connecting 6 to "T" appends it. -/
theorem unsubscribe_idempotent_subscribe_not_witness :
    disconnect smOnce 7 "T" = smOnce ∧
    subsOf (connect smOnce 6 "T") "T" = [5, 6] := by
  have h := unsubscribe_idempotent_subscribe_not smOnce 7 "T"
  have h2 := unsubscribe_idempotent_subscribe_not smOnce 6 "T"
  refine ⟨h.2.1 [5] rfl (by decide) (by decide), by simpa using h2.2.2 [5] rfl⟩

end Facturas
